import Mathlib

/-!
Verification development for the TechMart analytics core.

Each JavaScript service is shallowly embedded: JS numbers are modelled as
exact rationals, fallible data-access calls as `Except` values, and the
per-request middleware state as explicit state passing.  Definitions follow
the source files:
  * backend/src/services/fraudDetection.js
  * backend/src/services/inventoryManagement.js
  * backend/src/services/customerAnalytics.js
  * backend/src/middleware/performanceOptimization.js
-/

namespace TechMart

/-! ### Fraud detection service (fraudDetection.js)

`this.THRESHOLDS` of the `FraudDetectionService` constructor. -/

def HIGH_AMOUNT : ℚ := 5000
def VELOCITY_MAX_TRANSACTIONS : ℕ := 5
def AMOUNT_DEVIATION_MULTIPLIER : ℚ := 3
def SUSPICIOUS_HOURS_START : ℕ := 2
def SUSPICIOUS_HOURS_END : ℕ := 5
def MAX_VALID_AMOUNT : ℚ := 10000
def MIN_VALID_AMOUNT : ℚ := 1 / 100

/-- The customer fields the fraud service reads. -/
structure FraudCustomer where
  total_spent : ℚ
  risk_score : ℚ
deriving DecidableEq

/-- The transaction fields the fraud service reads.  `hour` is
`new Date(transaction.timestamp).getHours()`; `user_agent` is `none` when the
header is missing (falsy in JS). -/
structure FraudTransaction where
  total_amount : ℚ
  hour : ℕ
  user_agent : Option String
deriving DecidableEq

/-- One flag object: the checks return either a flag with
`suspicious: true` and a point score, or the bare object
with only a false suspicious field (here `noFlag`).  The human-readable `message`
field is not modelled; no claim concerns it. -/
structure CheckResult where
  ctype : String
  suspicious : Bool
  score : ℚ
deriving DecidableEq

def noFlag : CheckResult := ⟨"", false, 0⟩

/-- `avgSpent` of `checkAmountAnomaly`:
`customer ? parseFloat(customer.total_spent) / 10 : 500`. -/
def avgSpentOf : Option FraudCustomer → ℚ
  | some c => c.total_spent / 10
  | none => 500

/-- `checkAmountAnomaly(transaction, customer)`: four early-return tiers. -/
def checkAmountAnomaly (transaction : FraudTransaction)
    (customer : Option FraudCustomer) : CheckResult :=
  let amount := transaction.total_amount
  let avgSpent := avgSpentOf customer
  if amount > MAX_VALID_AMOUNT then ⟨"amount_exceeds_limit", true, 40⟩
  else if amount < MIN_VALID_AMOUNT then ⟨"amount_too_low", true, 20⟩
  else if amount > avgSpent * AMOUNT_DEVIATION_MULTIPLIER then
    ⟨"amount_deviation", true, 25⟩
  else if amount > HIGH_AMOUNT then ⟨"high_value", true, 15⟩
  else noFlag

/-- `checkVelocity(customerId)` once the `Transaction.count` query has
answered: `recentTransactions` is the count of transactions of this customer
in the trailing 10-minute window. -/
def checkVelocity (recentTransactions : ℕ) : CheckResult :=
  if recentTransactions ≥ VELOCITY_MAX_TRANSACTIONS then
    ⟨"velocity_exceeded", true, 30⟩
  else noFlag

/-- `checkTimePattern(timestamp)` on the extracted local hour. -/
def checkTimePattern (hour : ℕ) : CheckResult :=
  if SUSPICIOUS_HOURS_START ≤ hour ∧ hour ≤ SUSPICIOUS_HOURS_END then
    ⟨"unusual_time", true, 15⟩
  else noFlag

/-- `checkCustomerRisk(customer)`. -/
def checkCustomerRisk : Option FraudCustomer → CheckResult
  | none => ⟨"unknown_customer", true, 20⟩
  | some c =>
    if c.risk_score ≥ 7 / 10 then ⟨"high_risk_customer", true, 25⟩
    else noFlag

/-- Case-insensitive pattern set of `checkForBot` (each regex is a plain
substring test, `java\/` meaning the literal text `java/`). -/
def botPatterns : List String :=
  ["bot", "crawler", "spider", "curl", "wget", "python", "java/", "php"]

/-- Whether `needle` occurs at the head of `hay`. -/
def charsStartWith : List Char → List Char → Bool
  | [], _ => true
  | _ :: _, [] => false
  | a :: as, b :: bs => a = b && charsStartWith as bs

/-- Whether `needle` occurs anywhere inside `hay`. -/
def charsContain (needle : List Char) : List Char → Bool
  | [] => charsStartWith needle []
  | b :: bs => charsStartWith needle (b :: bs) || charsContain needle bs

/-- Case-insensitive substring test, the meaning of `/pat/i.test(ua)` for
the alphabetic patterns above. -/
def containsCI (needle hay : String) : Bool :=
  charsContain needle.toLower.toList hay.toLower.toList

/-- `checkForBot(userAgent)`. -/
def checkForBot : Option String → CheckResult
  | none => ⟨"missing_user_agent", true, 15⟩
  | some ua =>
    if botPatterns.any (fun p => containsCI p ua) then ⟨"bot_detected", true, 20⟩
    else noFlag

/-- `getSeverity(fraudScore)`. -/
def getSeverity (fraudScore : ℚ) : String :=
  if fraudScore ≥ 8 / 10 then "critical"
  else if fraudScore ≥ 6 / 10 then "high"
  else if fraudScore ≥ 4 / 10 then "medium"
  else "low"

/-- The aggregate object `analyzeTransaction` returns. -/
structure FraudAnalysis where
  fraudScore : ℚ
  flags : List CheckResult
  isSuspicious : Bool
  severity : String
deriving DecidableEq

/-- The accumulation loop of `analyzeTransaction`: each suspicious check is
pushed onto `flags` and adds its points; the raw sum is normalised by
`Math.min(fraudScore / 100, 1)`. -/
def aggregateChecks (checks : List CheckResult) : FraudAnalysis :=
  let flags := checks.filter (fun c => c.suspicious)
  let raw := (flags.map (fun c => c.score)).sum
  let fraudScore := min (raw / 100) 1
  ⟨fraudScore, flags, decide (fraudScore ≥ 5 / 10), getSeverity fraudScore⟩

/-- `analyzeTransaction` with the velocity check already resolved to a
`CheckResult` (checks run in source order: amount, velocity, time,
customer risk, bot). -/
def analyzeChecks (transaction : FraudTransaction)
    (customer : Option FraudCustomer) (velocityResult : CheckResult) :
    FraudAnalysis :=
  aggregateChecks
    [checkAmountAnomaly transaction customer,
     velocityResult,
     checkTimePattern transaction.hour,
     checkCustomerRisk customer,
     checkForBot transaction.user_agent]

/-- `analyzeTransaction(transaction, customer)` when the velocity query
answers with a count. -/
def analyzeTransaction (transaction : FraudTransaction)
    (customer : Option FraudCustomer) (recentTransactions : ℕ) :
    FraudAnalysis :=
  analyzeChecks transaction customer (checkVelocity recentTransactions)

/-- `checkVelocity` as actually written: `await Transaction.count(...)` has no
try/catch, so a rejected query rejects `checkVelocity` itself. -/
def checkVelocityQuery (queryResult : Except String ℕ) :
    Except String CheckResult := do
  let recentTransactions ← queryResult
  pure (checkVelocity recentTransactions)

/-- `analyzeTransaction` with the velocity data-access call made explicit:
`await this.checkVelocity(...)` threads any rejection straight out of the
scoring call (there is no try/catch anywhere in the service). -/
def analyzeTransactionWithQuery (transaction : FraudTransaction)
    (customer : Option FraudCustomer) (queryResult : Except String ℕ) :
    Except String FraudAnalysis := do
  let velocityResult ← checkVelocityQuery queryResult
  pure (analyzeChecks transaction customer velocityResult)

/-! ### Inventory forecast engine (inventoryManagement.js)

`predictStockLevels(productId, daysAhead)` once the 30-day grouped sales
query has answered.  `dailySales` is the per-day unit list the query
returns (one entry per calendar day that had completed sales, ascending). -/

/-- JS `Math.round`: half-up rounding toward positive infinity. -/
def jsRound (x : ℚ) : ℤ := ⌊x + 1 / 2⌋

/-- `avgDailySales`: mean of the daily unit counts, 0 on no data. -/
def avgDailySalesOf (dailySales : List ℕ) : ℚ :=
  if 0 < dailySales.length then
    ((dailySales.map (fun n => (n : ℚ))).sum) / dailySales.length
  else 0

/-- `trend`: fractional change of the last-7-day mean versus the
first-7-day mean, 0 when fewer than 7 days of data exist.  In ℚ a zero
`firstWeekAvg` makes the quotient 0 where JS produces Infinity or NaN; the
theorems touching this formula therefore assume `firstWeekAvg ≠ 0`. -/
def trendOf (dailySales : List ℕ) : ℚ :=
  if 7 ≤ dailySales.length then
    let firstWeekAvg := ((dailySales.take 7).map (fun n => (n : ℚ))).sum / 7
    let lastWeekAvg :=
      ((dailySales.drop (dailySales.length - 7)).map (fun n => (n : ℚ))).sum / 7
    (lastWeekAvg - firstWeekAvg) / firstWeekAvg
  else 0

/-- `predictedSales` of loop day `day`:
`Math.max(0, avgDailySales * (1 + trend * (day / 30)))`. -/
def predictedSalesOn (avgDailySales trend : ℚ) (day : ℕ) : ℚ :=
  max 0 (avgDailySales * (1 + trend * ((day : ℚ) / 30)))

/-- `currentStock` after `d` loop iterations:
`currentStock = Math.max(0, currentStock - predictedSales)`, starting from
the stored `product.stock_quantity`. -/
def predictedStockAfter (stock0 avgDailySales trend : ℚ) : ℕ → ℚ
  | 0 => stock0
  | d + 1 =>
    max 0 (predictedStockAfter stock0 avgDailySales trend d -
      predictedSalesOn avgDailySales trend (d + 1))

/-- `stockoutRisk` of one projected day, computed on the unrounded
`currentStock`. -/
def stockoutRiskOn (stock : ℚ) : String :=
  if stock ≤ 0 then "critical" else if stock ≤ 10 then "high" else "low"

/-- One element of the `predictions` array (the `date` string is not
modelled; no claim concerns it). -/
structure DayPrediction where
  day : ℕ
  predictedStock : ℤ
  predictedSales : ℤ
  stockoutRisk : String
deriving DecidableEq

/-- The `predictions` array for days `1 .. daysAhead`: the reported
`predictedStock` is `Math.round(currentStock)`. -/
def predictionsFor (stock0 avgDailySales trend : ℚ) (daysAhead : ℕ) :
    List DayPrediction :=
  (List.range' 1 daysAhead).map (fun day =>
    ⟨day,
     jsRound (predictedStockAfter stock0 avgDailySales trend day),
     jsRound (predictedSalesOn avgDailySales trend day),
     stockoutRiskOn (predictedStockAfter stock0 avgDailySales trend day)⟩)

/-- `daysUntilStockout`: `predictions.find(p => p.predictedStock <= 0)`,
reporting its `day`, null (`none`) when no projected day qualifies. -/
def daysUntilStockoutOf (preds : List DayPrediction) : Option ℕ :=
  (preds.find? (fun p => p.predictedStock ≤ 0)).map (fun p => p.day)

/-- The full projection of `predictStockLevels` for one product. -/
structure StockForecast where
  predictions : List DayPrediction
  daysUntilStockout : Option ℕ
deriving DecidableEq

def predictStockLevels (stock0 : ℕ) (dailySales : List ℕ) (daysAhead : ℕ) :
    StockForecast :=
  let avgDailySales := avgDailySalesOf dailySales
  let trend := trendOf dailySales
  let predictions := predictionsFor (stock0 : ℚ) avgDailySales trend daysAhead
  ⟨predictions, daysUntilStockoutOf predictions⟩

/-- The projection recurrence exactly as the spec words it: no inner clamp
on the per-day predicted sales before the subtraction.  Kept to compare
against `predictedStockAfter`, which embeds the source. -/
def specPredictedStock (stock0 avgDailySales trend : ℚ) : ℕ → ℚ
  | 0 => stock0
  | d + 1 =>
    max 0 (specPredictedStock stock0 avgDailySales trend d -
      avgDailySales * (1 + trend * (((d + 1 : ℕ) : ℚ) / 30)))

/-! `generateReorderSuggestions()`: the per-product suggestion step once the
batched 30-day sales query has answered with `totalSold` for the product. -/

/-- The supplier fields the reorder step reads. -/
structure RSupplier where
  id : ℕ
  name : String
  average_delivery_days : ℕ
deriving DecidableEq

/-- The product fields the reorder step reads; `supplier` is the eager-loaded
`product.Supplier`, `none` when no supplier row is attached. -/
structure RProduct where
  id : ℕ
  name : String
  stock_quantity : ℕ
  price : ℚ
  supplier : Option RSupplier
deriving DecidableEq

def SAFETY_STOCK_DAYS : ℕ := 3

/-- `const leadTime = product.Supplier?.average_delivery_days || 7;`
the `||` default fires on every falsy value: an absent supplier, and also
an attached supplier whose `average_delivery_days` is the number 0. -/
def leadTimeOf : Option RSupplier → ℕ
  | none => 7
  | some s => if s.average_delivery_days = 0 then 7 else s.average_delivery_days

/-- One emitted reorder suggestion (cost estimate and supplier echo are not
modelled; no claim concerns them). -/
structure ReorderSuggestion where
  productId : ℕ
  currentStock : ℕ
  avgDailySales : ℚ
  reorderPoint : ℤ
  recommendedQuantity : ℤ
  urgency : String
deriving DecidableEq

/-- The loop body of `generateReorderSuggestions` for one product:
`some` when the product is flagged for reorder, `none` otherwise. -/
def reorderSuggestionFor (product : RProduct) (totalSold : ℕ) :
    Option ReorderSuggestion :=
  let avgDailySales : ℚ := (totalSold : ℚ) / 30
  let leadTime := leadTimeOf product.supplier
  let reorderPoint : ℤ :=
    ⌈avgDailySales * ((leadTime : ℚ) + (SAFETY_STOCK_DAYS : ℚ))⌉
  let recommendedQuantity : ℤ := ⌈avgDailySales * 30⌉
  if (product.stock_quantity : ℤ) ≤ reorderPoint then
    some ⟨product.id, product.stock_quantity, avgDailySales, reorderPoint,
      recommendedQuantity,
      if product.stock_quantity = 0 then "critical"
      else if (product.stock_quantity : ℚ) ≤ avgDailySales * 3 then "high"
      else "medium"⟩
  else none

/-- The batch over all candidate products (`stock_quantity ≤ 50` is the query
filter), each paired with its batched `totalSold`.  The final urgency sort of
the source is not modelled; no claim concerns the output order. -/
def generateReorderSuggestions (products : List (RProduct × ℕ)) :
    List ReorderSuggestion :=
  (products.filter (fun pt => pt.1.stock_quantity ≤ 50)).filterMap
    (fun pt => reorderSuggestionFor pt.1 pt.2)

/-! ### Cache and rate-limit layer (performanceOptimization.js) -/

/-- The module-level `cacheStats` object. -/
structure CacheStats where
  hits : ℕ
  misses : ℕ
  sets : ℕ
deriving DecidableEq

def initialCacheStats : CacheStats := ⟨0, 0, 0⟩

/-- `cacheStats.hits++` on a middleware cache hit. -/
def recordHit (s : CacheStats) : CacheStats := { s with hits := s.hits + 1 }

/-- `cacheStats.misses++` on a middleware cache miss. -/
def recordMiss (s : CacheStats) : CacheStats := { s with misses := s.misses + 1 }

/-- `cacheStats.sets++` on a cache write. -/
def recordSet (s : CacheStats) : CacheStats := { s with sets := s.sets + 1 }

/-- `hitRate: cacheStats.hits / (cacheStats.hits + cacheStats.misses) || 0`:
with no samples JS evaluates 0/0 to NaN and `|| 0` replaces it with 0. -/
def hitRate (s : CacheStats) : ℚ :=
  if s.hits + s.misses = 0 then 0
  else (s.hits : ℚ) / ((s.hits : ℚ) + (s.misses : ℚ))

/-- One entry of the module-level `rateLimitStore` map. -/
structure RLEntry where
  count : ℕ
  resetTime : ℤ
deriving DecidableEq

/-- The `rateLimitStore` map, keyed by the client identity string. -/
def RLStore : Type := List (String × RLEntry)

/-- `rateLimitStore.get(key)`. -/
def storeGet : RLStore → String → Option RLEntry
  | [], _ => none
  | (k, e) :: rest, key => if k = key then some e else storeGet rest key

/-- `rateLimitStore.set(key, entry)`: replaces the binding of `key`. -/
def storeSet : RLStore → String → RLEntry → RLStore
  | [], key, entry => [(key, entry)]
  | (k, e0) :: rest, key, entry =>
    if k = key then (k, entry) :: rest else (k, e0) :: storeSet rest key entry

/-- What one rate-limited call reports: admission, the
`X-RateLimit-Remaining` header value, and `Retry-After` in seconds on
rejection. -/
structure RLOutcome where
  allowed : Bool
  remaining : ℤ
  retryAfter : Option ℤ
deriving DecidableEq

/-- One pass through the middleware returned by `rateLimiter(options)`:
stale or missing entry resets to a window ending `windowMs` from now, the
count is incremented and stored, and `entry.count > maxRequests` rejects
with `Retry-After = Math.ceil((entry.resetTime - now) / 1000)`. -/
def rateLimiterStep (windowMs : ℤ) (maxRequests : ℕ) (store : RLStore)
    (key : String) (now : ℤ) : RLStore × RLOutcome :=
  let entry0 : RLEntry :=
    match storeGet store key with
    | some e => if now > e.resetTime then ⟨0, now + windowMs⟩ else e
    | none => ⟨0, now + windowMs⟩
  let entry : RLEntry := ⟨entry0.count + 1, entry0.resetTime⟩
  (storeSet store key entry,
    if entry.count > maxRequests then
      ⟨false, max 0 ((maxRequests : ℤ) - (entry.count : ℤ)),
        some ⌈((entry.resetTime - now : ℤ) : ℚ) / 1000⌉⟩
    else
      ⟨true, max 0 ((maxRequests : ℤ) - (entry.count : ℤ)), none⟩)

/-! ### Customer analytics engine (customerAnalytics.js) -/

/-- Milliseconds per day, the divisor `1000 * 60 * 60 * 24`. -/
def dayMs : ℤ := 86400000

/-- `getSuggestedAction(riskLevel, loyaltyTier)`. -/
def getSuggestedAction (riskLevel loyaltyTier : String) : String :=
  if riskLevel = "critical" then
    if loyaltyTier = "platinum" ∨ loyaltyTier = "gold" then
      "Personal outreach with exclusive VIP offer"
    else "Send win-back email with 20% discount"
  else if riskLevel = "high" then
    "Send re-engagement email with personalized recommendations"
  else "Include in next promotional campaign"

/-- One entry of the `churnRisk` output (spend echo omitted; no claim
concerns it). -/
structure ChurnEntry where
  riskLevel : String
  churnProbability : ℚ
  suggestedAction : String
  daysSinceLastPurchase : ℤ
  avgDaysBetweenPurchases : ℤ
deriving DecidableEq

/-- The `identifyChurnRisk` loop body for one customer, given the current
time and the timestamps (ms) of the completed transactions: `none` when the
customer is skipped or not at risk. -/
def identifyChurnForCustomer (now : ℤ) (loyaltyTier : String)
    (txTimes : List ℤ) : Option ChurnEntry :=
  match txTimes with
  | [] => none
  | t :: ts =>
    let lastTs := (t :: ts).foldl max t
    let daysSinceLastPurchase : ℤ := ⌊((now - lastTs : ℤ) : ℚ) / (dayMs : ℚ)⌋
    if (t :: ts).length < 2 then none
    else
      let firstTs := (t :: ts).foldl min t
      let n := (t :: ts).length
      let avgDaysBetweenPurchases : ℤ :=
        ⌊((lastTs - firstTs : ℤ) : ℚ) / ((dayMs : ℚ) * ((n : ℚ) - 1))⌋
      let classed : ℚ × String :=
        if (daysSinceLastPurchase : ℚ) > (avgDaysBetweenPurchases : ℚ) * 3 then
          (9 / 10, "critical")
        else if (daysSinceLastPurchase : ℚ) > (avgDaysBetweenPurchases : ℚ) * 2 then
          (7 / 10, "high")
        else if (daysSinceLastPurchase : ℚ) > (avgDaysBetweenPurchases : ℚ) * (3 / 2) then
          (4 / 10, "medium")
        else (0, "low")
      if classed.1 ≥ 4 / 10 then
        some ⟨classed.2, classed.1, getSuggestedAction classed.2 loyaltyTier,
          daysSinceLastPurchase, avgDaysBetweenPurchases⟩
      else none

/-! `performRFMAnalysis()`.  The phase-1 loop builds one plain JS object per
customer.  The zero-transaction branch stores the property `recency: null`
and never sets `recencyDays`; every later read is of `recencyDays`, which
is therefore the JS value `undefined` for those objects.  The embedding
keeps `recencyDays : Option ℤ` with `none` standing for that absent
(undefined) property. -/

/-- The input the RFM query delivers per customer: the completed
transactions as (timestamp ms, total_amount) pairs. -/
structure RfmCustomerIn where
  id : ℕ
  loyalty_tier : String
  txs : List (ℤ × ℚ)
deriving DecidableEq

/-- One `rfmData` object.  `monetary` holds the value later reads observe:
phase 1 stores `monetary.toFixed(2)` (a string) for customers with
transactions and the number 0 otherwise, and every later read goes through
`parseFloat`, so the observed value is the 2-decimal rounding. -/
structure RfmEntry where
  customerId : ℕ
  loyaltyTier : String
  recencyDays : Option ℤ
  frequency : ℕ
  monetary : ℚ
  rfmScore : String
  segment : String
  totalScore : Option ℕ
deriving DecidableEq

/-- `x.toFixed(2)` then `parseFloat`, for nonnegative amounts. -/
def toFixed2 (x : ℚ) : ℚ := (jsRound (x * 100) : ℚ) / 100

/-- Phase 1 of `performRFMAnalysis` for one customer. -/
def buildRfmEntry (now : ℤ) (c : RfmCustomerIn) : RfmEntry :=
  match c.txs with
  | [] =>
    ⟨c.id, c.loyalty_tier, none, 0, 0, "111", "Lost", none⟩
  | t :: ts =>
    let lastTs := (t :: ts).foldl (fun m p => max m p.1) t.1
    let recencyDays : ℤ := ⌊((now - lastTs : ℤ) : ℚ) / (dayMs : ℚ)⌋
    let monetary := ((t :: ts).map (fun p => p.2)).sum
    ⟨c.id, c.loyalty_tier, some recencyDays, (t :: ts).length,
      toFixed2 monetary, "", "", none⟩

/-- `r.recencyDays !== null` of the `recencyValues` filter: a number and
`undefined` both differ from `null` under strict equality, so the filter
keeps every entry. -/
def recencyDaysStrictNeNull (_ : Option ℤ) : Bool := true

/-- `customer.recencyDays === null` of the scoring-loop guard: no entry ever
has the literal `null` there (the zero-transaction branch stores `recency`,
not `recencyDays`, leaving `recencyDays` undefined, and
`undefined === null` is false), so the guard never fires. -/
def recencyDaysStrictEqNull (_ : Option ℤ) : Bool := false

/-- JS `v >= val` inside the `findIndex` callback: false whenever either
side is `undefined` (the comparison is NaN-driven). -/
def jsGe : Option ℚ → Option ℚ → Bool
  | some a, some b => a ≥ b
  | _, _ => false

/-- Ascending insertion into a sorted list of rationals. -/
def insertRat (x : ℚ) : List ℚ → List ℚ
  | [] => [x]
  | y :: ys => if x ≤ y then x :: y :: ys else y :: insertRat x ys

/-- Ascending sort of a list of rationals. -/
def sortRats : List ℚ → List ℚ
  | [] => []
  | x :: xs => insertRat x (sortRats xs)

/-- `[...arr].sort((a, b) => a - b)` on an array that may hold `undefined`
entries: JS sorts the defined values ascending and moves every `undefined`
to the end. -/
def sortJS (arr : List (Option ℚ)) : List (Option ℚ) :=
  (sortRats (arr.filterMap id)).map some ++ arr.filter (fun v => v.isNone)

/-- `getPercentile(arr, val, inverse)`.  The population arrays are nonempty
in every use below, so the JS division by `sorted.length` never divides
by zero here. -/
def getPercentile (arr : List (Option ℚ)) (val : Option ℚ) (inverse : Bool) : ℚ :=
  let sorted := sortJS arr
  let idx : ℤ :=
    match sorted.findIdx? (fun v => jsGe v val) with
    | some i => (i : ℤ)
    | none => -1
  let percentile := ((idx : ℚ) / (sorted.length : ℚ)) * 100
  if inverse then 100 - percentile else percentile

/-- `getScore(percentile)`. -/
def getScore (percentile : ℚ) : ℕ :=
  if percentile ≥ 80 then 5
  else if percentile ≥ 60 then 4
  else if percentile ≥ 40 then 3
  else if percentile ≥ 20 then 2
  else 1

/-- `assignSegment(r, f, m)` (its unused local `avg` is dead code). -/
def assignSegment (r f m : ℕ) : String :=
  if r ≥ 4 ∧ f ≥ 4 ∧ m ≥ 4 then "Champions"
  else if r ≥ 4 ∧ f ≥ 3 ∧ m ≥ 3 then "Loyal Customers"
  else if r ≥ 4 ∧ f ≤ 2 then "New Customers"
  else if r ≥ 3 ∧ f ≥ 3 ∧ m ≥ 3 then "Potential Loyalists"
  else if r ≤ 2 ∧ f ≥ 4 ∧ m ≥ 4 then "At Risk"
  else if r ≤ 2 ∧ f ≥ 2 ∧ m ≥ 2 then "Need Attention"
  else if r ≤ 2 ∧ f ≤ 2 ∧ m ≤ 2 then "Lost"
  else if m ≥ 4 then "Big Spenders"
  else "Others"

/-- Phase 2 of `performRFMAnalysis` for one entry: the guard
`customer.recencyDays === null` never skips (see
`recencyDaysStrictEqNull`), then the three percentile scores overwrite
`rfmScore`, `segment` and `totalScore`. -/
def scoreRfmEntry (recencyValues : List (Option ℚ))
    (frequencyValues monetaryValues : List ℚ) (e : RfmEntry) : RfmEntry :=
  if recencyDaysStrictEqNull e.recencyDays then e
  else
    let rScore := getScore (getPercentile recencyValues
      (e.recencyDays.map (fun d => (d : ℚ))) true)
    let fScore := getScore (getPercentile (frequencyValues.map some)
      (some (e.frequency : ℚ)) false)
    let mScore := getScore (getPercentile (monetaryValues.map some)
      (some e.monetary) false)
    { e with
      rfmScore := toString rScore ++ toString fScore ++ toString mScore,
      segment := assignSegment rScore fScore mScore,
      totalScore := some (rScore + fScore + mScore) }

/-- `performRFMAnalysis()`: the scored `rfmData` list (segment grouping and
the top-20 report are projections of it; no claim concerns them). -/
def performRFMAnalysis (now : ℤ) (customers : List RfmCustomerIn) :
    List RfmEntry :=
  let rfmData := customers.map (buildRfmEntry now)
  let recencyValues :=
    (rfmData.filter (fun r => recencyDaysStrictNeNull r.recencyDays)).map
      (fun r => r.recencyDays.map (fun d => (d : ℚ)))
  let frequencyValues := rfmData.map (fun r => (r.frequency : ℚ))
  let monetaryValues := rfmData.map (fun r => r.monetary)
  rfmData.map (scoreRfmEntry recencyValues frequencyValues monetaryValues)

/-! ### Concrete inputs used by closed theorems -/

/-- An ordinary transaction: $100 at noon from a regular browser. -/
def plainTx : FraudTransaction := ⟨100, 12, some "Mozilla/5.0"⟩

/-- 14 days of sales: a 60-unit first week, a zero last week, giving
average 30 and trend -1. -/
def cexDailySales : List ℕ := [60, 60, 60, 60, 60, 60, 60, 0, 0, 0, 0, 0, 0, 0]

/-- A supplier whose `average_delivery_days` is 0 (same-day delivery). -/
def cexSupplier : RSupplier := ⟨1, "SameDay Logistics", 0⟩

/-- A low-stock product attached to `cexSupplier`. -/
def cexProduct : RProduct := ⟨1, "Widget", 5, 10, some cexSupplier⟩

/-- Completed purchases on days 0, 7 and 15. -/
def churnCexTimes : List ℤ := [0, 7 * dayMs, 15 * dayMs]

/-- Two customers: one with a single $100 purchase 5 days ago, one with no
completed transactions at all. -/
def rfmBugCustomers : List RfmCustomerIn :=
  [⟨1, "none", [(5 * dayMs, 100)]⟩, ⟨2, "none", []⟩]

/-! ### Helper lemmas -/

theorem checkAmountAnomaly_score_nonneg (t : FraudTransaction)
    (c : Option FraudCustomer) : 0 ≤ (checkAmountAnomaly t c).score := by
  unfold checkAmountAnomaly
  dsimp only
  split_ifs <;> norm_num [noFlag]

theorem checkVelocity_score_nonneg (n : ℕ) : 0 ≤ (checkVelocity n).score := by
  unfold checkVelocity
  split_ifs <;> norm_num [noFlag]

theorem checkTimePattern_score_nonneg (h : ℕ) :
    0 ≤ (checkTimePattern h).score := by
  unfold checkTimePattern
  split_ifs <;> norm_num [noFlag]

theorem checkCustomerRisk_score_nonneg (c : Option FraudCustomer) :
    0 ≤ (checkCustomerRisk c).score := by
  cases c with
  | none => norm_num [checkCustomerRisk]
  | some c =>
    dsimp only [checkCustomerRisk]
    split_ifs <;> norm_num [noFlag]

theorem checkForBot_score_nonneg (ua : Option String) :
    0 ≤ (checkForBot ua).score := by
  cases ua with
  | none => norm_num [checkForBot]
  | some ua =>
    dsimp only [checkForBot]
    split_ifs <;> norm_num [noFlag]

theorem aggregateChecks_fraudScore_bounds (checks : List CheckResult)
    (h : ∀ c ∈ checks, 0 ≤ c.score) :
    0 ≤ (aggregateChecks checks).fraudScore ∧
      (aggregateChecks checks).fraudScore ≤ 1 := by
  have hraw : 0 ≤ ((checks.filter (fun c => c.suspicious)).map
      (fun c => c.score)).sum := by
    apply List.sum_nonneg
    intro x hx
    rcases List.mem_map.mp hx with ⟨c, hc, rfl⟩
    exact h c (List.mem_of_mem_filter hc)
  constructor
  · exact le_min (by positivity) zero_le_one
  · exact min_le_right _ _

theorem getSeverity_spec (s : ℚ) :
    (getSeverity s = "critical" ↔ 8 / 10 ≤ s) ∧
    (getSeverity s = "high" ↔ 6 / 10 ≤ s ∧ s < 8 / 10) ∧
    (getSeverity s = "medium" ↔ 4 / 10 ≤ s ∧ s < 6 / 10) ∧
    (getSeverity s = "low" ↔ s < 4 / 10) := by
  unfold getSeverity
  split_ifs with h1 h2 h3
  · refine ⟨iff_of_true rfl h1, iff_of_false (by decide) ?_,
      iff_of_false (by decide) ?_, iff_of_false (by decide) ?_⟩
    · rintro ⟨-, hb⟩; exact absurd h1 (not_le.mpr hb)
    · rintro ⟨-, hb⟩
      exact absurd h1 (not_le.mpr (hb.trans (by norm_num)))
    · intro hb; exact absurd h1 (not_le.mpr (hb.trans (by norm_num)))
  · refine ⟨iff_of_false (by decide) (fun hb => h1 hb),
      iff_of_true rfl ⟨h2, not_le.mp h1⟩,
      iff_of_false (by decide) ?_, iff_of_false (by decide) ?_⟩
    · rintro ⟨-, hb⟩; exact absurd h2 (not_le.mpr hb)
    · intro hb; exact absurd h2 (not_le.mpr (hb.trans (by norm_num)))
  · refine ⟨iff_of_false (by decide) (fun hb => h1 hb),
      iff_of_false (by decide) (fun hb => h2 hb.1),
      iff_of_true rfl ⟨h3, not_le.mp h2⟩,
      iff_of_false (by decide) ?_⟩
    · intro hb; exact absurd h3 (not_le.mpr hb)
  · refine ⟨iff_of_false (by decide) (fun hb => h1 hb),
      iff_of_false (by decide) (fun hb => h2 hb.1),
      iff_of_false (by decide) (fun hb => h3 hb.1),
      iff_of_true rfl (not_le.mp h3)⟩

/-! ### Claim C1 -/

/-- Claim C1: for every transaction and customer input (customer possibly
absent) and every velocity-count answer, the returned analysis has
`0 ≤ fraudScore ≤ 1`; `isSuspicious` holds exactly when
`fraudScore ≥ 0.5`; and the severity is the monotone bucket of the score:
critical iff `≥ 0.8`, high iff `0.6 ≤ _ < 0.8`, medium iff
`0.4 ≤ _ < 0.6`, low iff `< 0.4`. -/
theorem fraud_analysis_invariants (transaction : FraudTransaction)
    (customer : Option FraudCustomer) (recentTransactions : ℕ) :
    0 ≤ (analyzeTransaction transaction customer recentTransactions).fraudScore ∧
    (analyzeTransaction transaction customer recentTransactions).fraudScore ≤ 1 ∧
    ((analyzeTransaction transaction customer recentTransactions).isSuspicious
        = true ↔
      5 / 10 ≤ (analyzeTransaction transaction customer recentTransactions).fraudScore) ∧
    ((analyzeTransaction transaction customer recentTransactions).severity
        = "critical" ↔
      8 / 10 ≤ (analyzeTransaction transaction customer recentTransactions).fraudScore) ∧
    ((analyzeTransaction transaction customer recentTransactions).severity
        = "high" ↔
      6 / 10 ≤ (analyzeTransaction transaction customer recentTransactions).fraudScore ∧
      (analyzeTransaction transaction customer recentTransactions).fraudScore < 8 / 10) ∧
    ((analyzeTransaction transaction customer recentTransactions).severity
        = "medium" ↔
      4 / 10 ≤ (analyzeTransaction transaction customer recentTransactions).fraudScore ∧
      (analyzeTransaction transaction customer recentTransactions).fraudScore < 6 / 10) ∧
    ((analyzeTransaction transaction customer recentTransactions).severity
        = "low" ↔
      (analyzeTransaction transaction customer recentTransactions).fraudScore < 4 / 10) := by
  have hmem : ∀ c ∈ [checkAmountAnomaly transaction customer,
      checkVelocity recentTransactions,
      checkTimePattern transaction.hour,
      checkCustomerRisk customer,
      checkForBot transaction.user_agent], 0 ≤ c.score := by
    intro c hc
    simp only [List.mem_cons, List.not_mem_nil, or_false] at hc
    rcases hc with rfl | rfl | rfl | rfl | rfl
    · exact checkAmountAnomaly_score_nonneg _ _
    · exact checkVelocity_score_nonneg _
    · exact checkTimePattern_score_nonneg _
    · exact checkCustomerRisk_score_nonneg _
    · exact checkForBot_score_nonneg _
  have hbounds := aggregateChecks_fraudScore_bounds _ hmem
  have hsev := getSeverity_spec
    (analyzeTransaction transaction customer recentTransactions).fraudScore
  have hsevEq : (analyzeTransaction transaction customer recentTransactions).severity
      = getSeverity (analyzeTransaction transaction customer recentTransactions).fraudScore := rfl
  have hsusEq : (analyzeTransaction transaction customer recentTransactions).isSuspicious
      = decide (5 / 10 ≤ (analyzeTransaction transaction customer recentTransactions).fraudScore) := rfl
  refine ⟨hbounds.1, hbounds.2, ?_, ?_, ?_, ?_, ?_⟩
  · rw [hsusEq]; exact decide_eq_true_iff
  · rw [hsevEq]; exact hsev.1
  · rw [hsevEq]; exact hsev.2.1
  · rw [hsevEq]; exact hsev.2.2.1
  · rw [hsevEq]; exact hsev.2.2.2

/-! ### Claim C2 -/

/-- Claim C2: the four amount tiers fire in priority order with
first-match-wins semantics — over 10000 gives the 40-point flag, under
0.01 the 20-point flag, over three times the estimated customer average
(total_spent/10 when known, 500 otherwise) the 25-point flag, over 5000
the 15-point flag, and exactly one of the five outcomes obtains; in
particular every 15000 transaction yields exactly the 40-point flag. -/
theorem amount_anomaly_tiers (transaction : FraudTransaction)
    (customer : Option FraudCustomer) :
    (avgSpentOf none = 500 ∧ ∀ c, avgSpentOf (some c) = c.total_spent / 10) ∧
    (checkAmountAnomaly transaction customer =
        ⟨"amount_exceeds_limit", true, 40⟩ ↔
      transaction.total_amount > 10000) ∧
    (checkAmountAnomaly transaction customer = ⟨"amount_too_low", true, 20⟩ ↔
      ¬ transaction.total_amount > 10000 ∧
      transaction.total_amount < 1 / 100) ∧
    (checkAmountAnomaly transaction customer = ⟨"amount_deviation", true, 25⟩ ↔
      ¬ transaction.total_amount > 10000 ∧
      ¬ transaction.total_amount < 1 / 100 ∧
      transaction.total_amount > avgSpentOf customer * 3) ∧
    (checkAmountAnomaly transaction customer = ⟨"high_value", true, 15⟩ ↔
      ¬ transaction.total_amount > 10000 ∧
      ¬ transaction.total_amount < 1 / 100 ∧
      ¬ transaction.total_amount > avgSpentOf customer * 3 ∧
      transaction.total_amount > 5000) ∧
    ((checkAmountAnomaly transaction customer).suspicious = false ↔
      ¬ transaction.total_amount > 10000 ∧
      ¬ transaction.total_amount < 1 / 100 ∧
      ¬ transaction.total_amount > avgSpentOf customer * 3 ∧
      ¬ transaction.total_amount > 5000) ∧
    (transaction.total_amount = 15000 →
      checkAmountAnomaly transaction customer =
        ⟨"amount_exceeds_limit", true, 40⟩) := by
  refine ⟨⟨rfl, fun c => rfl⟩, ?_⟩
  unfold checkAmountAnomaly MAX_VALID_AMOUNT MIN_VALID_AMOUNT
    AMOUNT_DEVIATION_MULTIPLIER HIGH_AMOUNT
  dsimp only
  split_ifs with h1 h2 h3 h4
  · exact ⟨iff_of_true rfl h1,
      iff_of_false (by decide) (fun hc => hc.1 h1),
      iff_of_false (by decide) (fun hc => hc.1 h1),
      iff_of_false (by decide) (fun hc => hc.1 h1),
      iff_of_false (by decide) (fun hc => hc.1 h1),
      fun _ => rfl⟩
  · refine ⟨iff_of_false (by decide) h1,
      iff_of_true rfl ⟨h1, h2⟩,
      iff_of_false (by decide) (fun hc => hc.2.1 h2),
      iff_of_false (by decide) (fun hc => hc.2.1 h2),
      iff_of_false (by decide) (fun hc => hc.2.1 h2), ?_⟩
    intro he
    exact absurd (by rw [he]; norm_num) h1
  · refine ⟨iff_of_false (by decide) h1,
      iff_of_false (by decide) (fun hc => h2 hc.2),
      iff_of_true rfl ⟨h1, h2, h3⟩,
      iff_of_false (by decide) (fun hc => hc.2.2.1 h3),
      iff_of_false (by decide) (fun hc => hc.2.2.1 h3), ?_⟩
    intro he
    exact absurd (by rw [he]; norm_num) h1
  · refine ⟨iff_of_false (by decide) h1,
      iff_of_false (by decide) (fun hc => h2 hc.2),
      iff_of_false (by decide) (fun hc => h3 hc.2.2),
      iff_of_true rfl ⟨h1, h2, h3, h4⟩,
      iff_of_false (by decide) (fun hc => hc.2.2.2 h4), ?_⟩
    intro he
    exact absurd (by rw [he]; norm_num) h1
  · refine ⟨iff_of_false (by decide) h1,
      iff_of_false (by decide) (fun hc => h2 hc.2),
      iff_of_false (by decide) (fun hc => h3 hc.2.2),
      iff_of_false (by decide) (fun hc => h4 hc.2.2.2),
      iff_of_true rfl ⟨h1, h2, h3, h4⟩, ?_⟩
    intro he
    exact absurd (by rw [he]; norm_num) h1

/-- Witness for C2 at a concrete input: a 15000 transaction from an
unknown customer yields exactly the 40-point limit flag. -/
theorem amount_anomaly_tiers_witness :
    checkAmountAnomaly ⟨15000, 12, some "Mozilla/5.0"⟩ none =
      ⟨"amount_exceeds_limit", true, 40⟩ :=
  (amount_anomaly_tiers ⟨15000, 12, some "Mozilla/5.0"⟩ none).2.2.2.2.2.2 rfl

/-! ### Claim C3 -/

/-- Counterexample to claim C3: with the velocity query failing, the
scoring call does not return the aggregate analysis — it rejects with the
very failure, so no seven-field analysis object exists. -/
theorem velocity_failure_blocks_result :
    analyzeTransactionWithQuery plainTx none (Except.error "db down") =
      Except.error "db down" ∧
    ¬ ∃ a, analyzeTransactionWithQuery plainTx none (Except.error "db down") =
      Except.ok a := by
  refine ⟨rfl, ?_⟩
  rintro ⟨a, ha⟩
  rw [show analyzeTransactionWithQuery plainTx none (Except.error "db down") =
    Except.error "db down" from rfl] at ha
  exact Except.noConfusion ha

/-- Claim C3 as amended: a failing velocity query propagates out of the
fraud-scoring call unchanged — no aggregate result is produced — while a
successful query yields the ordinary five-check aggregate. -/
theorem velocity_failure_propagates (transaction : FraudTransaction)
    (customer : Option FraudCustomer) (e : String) :
    analyzeTransactionWithQuery transaction customer (Except.error e) =
      Except.error e ∧
    ∀ recentTransactions : ℕ,
      analyzeTransactionWithQuery transaction customer
          (Except.ok recentTransactions) =
        Except.ok (analyzeTransaction transaction customer recentTransactions) :=
  ⟨rfl, fun _ => rfl⟩

/-! ### Claims C4 and C10 -/

theorem find?_range'_eq_some {p : ℕ → Bool} :
    ∀ {n s d : ℕ}, (List.range' s n).find? p = some d →
      s ≤ d ∧ d < s + n ∧ p d = true ∧ ∀ e, s ≤ e → e < d → p e = false := by
  intro n
  induction n with
  | zero => intro s d h; simp [List.range'] at h
  | succ n ih =>
    intro s d h
    rw [List.range'_succ] at h
    by_cases hp : p s
    · rw [List.find?_cons_of_pos _ hp] at h
      obtain rfl : s = d := by injection h
      exact ⟨le_refl _, by omega, hp, fun e he1 he2 => absurd he1 (by omega)⟩
    · rw [List.find?_cons_of_neg _ hp] at h
      obtain ⟨h1, h2, h3, h4⟩ := ih h
      refine ⟨by omega, by omega, h3, ?_⟩
      intro e he1 he2
      rcases eq_or_lt_of_le he1 with rfl | hlt
      · simpa using hp
      · exact h4 e (by omega) he2

theorem find?_range'_eq_none {p : ℕ → Bool} :
    ∀ {n s : ℕ}, (List.range' s n).find? p = none →
      ∀ e, s ≤ e → e < s + n → p e = false := by
  intro n
  induction n with
  | zero => intro s _ e he1 he2; omega
  | succ n ih =>
    intro s h e he1 he2
    rw [List.range'_succ] at h
    by_cases hp : p s
    · rw [List.find?_cons_of_pos _ hp] at h
      exact Option.noConfusion h
    · rw [List.find?_cons_of_neg _ hp] at h
      rcases eq_or_lt_of_le he1 with rfl | hlt
      · simpa using hp
      · exact ih h e (by omega) (by omega)

theorem stockoutRiskOn_spec (s : ℚ) :
    (stockoutRiskOn s = "critical" ↔ s ≤ 0) ∧
    (stockoutRiskOn s = "high" ↔ 0 < s ∧ s ≤ 10) ∧
    (stockoutRiskOn s = "low" ↔ 10 < s) := by
  unfold stockoutRiskOn
  split_ifs with h1 h2
  · refine ⟨iff_of_true rfl h1, iff_of_false (by decide) ?_,
      iff_of_false (by decide) ?_⟩
    · rintro ⟨ha, -⟩; exact absurd h1 (not_le.mpr ha)
    · intro ha; exact absurd h1 (not_le.mpr (by linarith))
  · refine ⟨iff_of_false (by decide) h1,
      iff_of_true rfl ⟨not_le.mp h1, h2⟩,
      iff_of_false (by decide) (fun ha => absurd h2 (not_le.mpr ha))⟩
  · refine ⟨iff_of_false (by decide) h1,
      iff_of_false (by decide) (fun ha => h2 ha.2),
      iff_of_true rfl (not_le.mp h2)⟩

set_option maxRecDepth 10000 in
/-- Counterexample to claim C4: 14 days of sales (a 60-unit first week,
a zero second week) give average 30 and trend -1.  Starting from 500
units, the code holds the projection flat at 65 from day 30 to day 31
because the negative predicted sales are clamped to 0 first, whereas the
recurrence exactly as the claim states it rises to 66. -/
theorem stock_recurrence_counterexample :
    avgDailySalesOf cexDailySales = 30 ∧
    trendOf cexDailySales = -1 ∧
    predictedStockAfter 500 30 (-1) 30 = 65 ∧
    predictedStockAfter 500 30 (-1) 31 = 65 ∧
    specPredictedStock 500 30 (-1) 31 = 66 := by
  refine ⟨by with_unfolding_all decide, by with_unfolding_all decide,
    by with_unfolding_all decide, by with_unfolding_all decide,
    by with_unfolding_all decide⟩

/-- Claim C4 as amended: the day-by-day projection subtracts the per-day
predicted sales clamped at 0, so
`predictedStock[d] = max(0, predictedStock[d-1] - max(0, A*(1+T*(d/30))))`;
the trend is 0 below 7 days of data and otherwise the fractional change of
the last-7-day mean versus the first-7-day mean (when that mean is
nonzero); the classification of each day is critical/high/low on the
unrounded projected stock at thresholds 0 and 10; and days-until-stockout
is the first day whose rounded projected stock reaches 0, `none` when no
day in the horizon does. -/
theorem stock_projection_spec (stock0 : ℕ) (avgDailySales trend : ℚ)
    (daysAhead : ℕ) :
    (∀ d : ℕ, predictedStockAfter (stock0 : ℚ) avgDailySales trend (d + 1) =
      max 0 (predictedStockAfter (stock0 : ℚ) avgDailySales trend d -
        max 0 (avgDailySales * (1 + trend * (((d + 1 : ℕ) : ℚ) / 30))))) ∧
    predictedStockAfter (stock0 : ℚ) avgDailySales trend 0 = stock0 ∧
    (∀ dailySales : List ℕ, dailySales.length < 7 → trendOf dailySales = 0) ∧
    (∀ dailySales : List ℕ, 7 ≤ dailySales.length →
      ((dailySales.take 7).map (fun n => (n : ℚ))).sum / 7 ≠ 0 →
      trendOf dailySales =
        (((dailySales.drop (dailySales.length - 7)).map (fun n => (n : ℚ))).sum / 7 -
            ((dailySales.take 7).map (fun n => (n : ℚ))).sum / 7) /
          (((dailySales.take 7).map (fun n => (n : ℚ))).sum / 7)) ∧
    (∀ dailySales : List ℕ, 0 < dailySales.length →
      avgDailySalesOf dailySales =
        ((dailySales.map (fun n => (n : ℚ))).sum) / dailySales.length) ∧
    avgDailySalesOf [] = 0 ∧
    (∀ d : ℕ, 1 ≤ d → d ≤ daysAhead →
      (predictionsFor (stock0 : ℚ) avgDailySales trend daysAhead)[d - 1]? =
        some ⟨d, jsRound (predictedStockAfter (stock0 : ℚ) avgDailySales trend d),
          jsRound (predictedSalesOn avgDailySales trend d),
          stockoutRiskOn (predictedStockAfter (stock0 : ℚ) avgDailySales trend d)⟩) ∧
    (∀ d : ℕ,
      daysUntilStockoutOf (predictionsFor (stock0 : ℚ) avgDailySales trend daysAhead)
          = some d →
      1 ≤ d ∧ d ≤ daysAhead ∧
      jsRound (predictedStockAfter (stock0 : ℚ) avgDailySales trend d) ≤ 0 ∧
      ∀ e, 1 ≤ e → e < d →
        0 < jsRound (predictedStockAfter (stock0 : ℚ) avgDailySales trend e)) ∧
    (daysUntilStockoutOf (predictionsFor (stock0 : ℚ) avgDailySales trend daysAhead)
        = none →
      ∀ d, 1 ≤ d → d ≤ daysAhead →
        0 < jsRound (predictedStockAfter (stock0 : ℚ) avgDailySales trend d)) := by
  refine ⟨fun d => rfl, rfl, ?_, ?_, ?_, rfl, ?_, ?_, ?_⟩
  · intro ds h
    unfold trendOf
    rw [if_neg (by omega)]
  · intro ds h _
    unfold trendOf
    rw [if_pos h]
  · intro ds h
    unfold avgDailySalesOf
    rw [if_pos h]
  · intro d h1 h2
    have hidx : (List.range' 1 daysAhead)[d - 1]? = some d := by
      rw [List.getElem?_range' _ _ (by omega : d - 1 < daysAhead)]
      congr 1
      omega
    unfold predictionsFor
    rw [List.getElem?_map, hidx]
    rfl
  · intro d h
    unfold daysUntilStockoutOf predictionsFor at h
    rw [List.find?_map] at h
    rw [Option.map_map] at h
    rcases Option.map_eq_some'.mp h with ⟨day, hfind, hday⟩
    obtain ⟨hs, hlt, hp, hbefore⟩ := find?_range'_eq_some hfind
    have hd : day = d := hday
    subst hd
    refine ⟨hs, by omega, of_decide_eq_true hp, ?_⟩
    intro e he1 he2
    have := hbefore e he1 he2
    have hne := of_decide_eq_false this
    exact lt_of_not_le hne
  · intro h d h1 h2
    unfold daysUntilStockoutOf predictionsFor at h
    rw [List.find?_map, Option.map_map] at h
    have hfind : (List.range' 1 daysAhead).find?
        ((fun p : DayPrediction => decide (p.predictedStock ≤ 0)) ∘ fun day =>
          (⟨day, jsRound (predictedStockAfter (stock0 : ℚ) avgDailySales trend day),
            jsRound (predictedSalesOn avgDailySales trend day),
            stockoutRiskOn (predictedStockAfter (stock0 : ℚ) avgDailySales trend day)⟩ :
            DayPrediction)) = none := by
      rcases hcase : (List.range' 1 daysAhead).find? _ with _ | v
      · rfl
      · rw [hcase] at h
        exact Option.noConfusion h
    have := find?_range'_eq_none hfind d h1 (by omega)
    exact lt_of_not_le (of_decide_eq_false this)

/-- Claim C10: from any nonnegative integer starting stock, any average
daily sales and any trend ratio (however negative), the projected stock is
nonnegative on every day and never rises from one day to the next, because
the per-day predicted sales are clamped at 0 before the subtraction. -/
theorem stock_projection_monotone (stock0 : ℕ) (avgDailySales trend : ℚ)
    (d : ℕ) :
    0 ≤ predictedStockAfter (stock0 : ℚ) avgDailySales trend d ∧
    predictedStockAfter (stock0 : ℚ) avgDailySales trend (d + 1) ≤
      predictedStockAfter (stock0 : ℚ) avgDailySales trend d := by
  have nonneg : ∀ k, 0 ≤ predictedStockAfter (stock0 : ℚ) avgDailySales trend k := by
    intro k
    cases k with
    | zero =>
      show (0 : ℚ) ≤ (stock0 : ℚ)
      exact Nat.cast_nonneg stock0
    | succ k => exact le_max_left 0 _
  refine ⟨nonneg d, ?_⟩
  have hsales : 0 ≤ predictedSalesOn avgDailySales trend (d + 1) := le_max_left 0 _
  have hstep : predictedStockAfter (stock0 : ℚ) avgDailySales trend (d + 1) =
      max 0 (predictedStockAfter (stock0 : ℚ) avgDailySales trend d -
        predictedSalesOn avgDailySales trend (d + 1)) := rfl
  rw [hstep]
  apply max_le (nonneg d)
  linarith

/-! ### Claim C5 -/

theorem storeGet_storeSet_self (s : RLStore) (key : String) (e : RLEntry) :
    storeGet (storeSet s key e) key = some e := by
  induction s with
  | nil => simp [storeGet, storeSet]
  | cons p rest ih =>
    obtain ⟨k, e0⟩ := p
    by_cases hk : k = key
    · simp [storeSet, storeGet, hk]
    · simp [storeSet, storeGet, hk, ih]

theorem storeGet_storeSet_other (s : RLStore) (key other : String)
    (e : RLEntry) (h : other ≠ key) :
    storeGet (storeSet s key e) other = storeGet s other := by
  induction s with
  | nil =>
    have hne : ¬ key = other := fun hh => h hh.symm
    simp [storeGet, storeSet, hne]
  | cons p rest ih =>
    obtain ⟨k, e0⟩ := p
    by_cases hk : k = key
    · subst hk
      have hne : ¬ k = other := fun hh => h hh.symm
      simp [storeSet, storeGet, hne]
    · simp [storeSet, storeGet, hk, ih]

/-- Claim C5: the rate limiter is a fixed-window counter per client
identity.  A missing or elapsed entry resets to count 0 with a window
ending `windowMs` from now, the count is incremented and stored, the call
is rejected exactly when the stored post-increment count exceeds the
maximum (with `Retry-After` the remaining window time in whole seconds,
rounded up), other identities are untouched, and with `maxRequests = 3`
the first three calls of an identity pass, the fourth is rejected with a
positive retry-after of 60 s while another identity still passes. -/
theorem rate_limiter_fixed_window (windowMs : ℤ) (maxRequests : ℕ)
    (store : RLStore) (key other : String) (now : ℤ) :
    (storeGet store key = none →
      storeGet (rateLimiterStep windowMs maxRequests store key now).1 key =
        some ⟨1, now + windowMs⟩) ∧
    (∀ e, storeGet store key = some e → now > e.resetTime →
      storeGet (rateLimiterStep windowMs maxRequests store key now).1 key =
        some ⟨1, now + windowMs⟩) ∧
    (∀ e, storeGet store key = some e → ¬ now > e.resetTime →
      storeGet (rateLimiterStep windowMs maxRequests store key now).1 key =
        some ⟨e.count + 1, e.resetTime⟩) ∧
    (∀ e,
      storeGet (rateLimiterStep windowMs maxRequests store key now).1 key =
          some e →
      ((rateLimiterStep windowMs maxRequests store key now).2.allowed = true ↔
        e.count ≤ maxRequests) ∧
      (rateLimiterStep windowMs maxRequests store key now).2.remaining =
        max 0 ((maxRequests : ℤ) - (e.count : ℤ)) ∧
      ((rateLimiterStep windowMs maxRequests store key now).2.allowed = false →
        (rateLimiterStep windowMs maxRequests store key now).2.retryAfter =
          some ⌈((e.resetTime - now : ℤ) : ℚ) / 1000⌉) ∧
      ((rateLimiterStep windowMs maxRequests store key now).2.allowed = true →
        (rateLimiterStep windowMs maxRequests store key now).2.retryAfter =
          none)) ∧
    (other ≠ key →
      storeGet (rateLimiterStep windowMs maxRequests store key now).1 other =
        storeGet store other) ∧
    (let r1 := rateLimiterStep 60000 3 [] "a" 0
     let r2 := rateLimiterStep 60000 3 r1.1 "a" 0
     let r3 := rateLimiterStep 60000 3 r2.1 "a" 0
     let r4 := rateLimiterStep 60000 3 r3.1 "a" 0
     let rb := rateLimiterStep 60000 3 r4.1 "b" 0
     r1.2.allowed = true ∧ r2.2.allowed = true ∧ r3.2.allowed = true ∧
       r4.2.allowed = false ∧ r4.2.retryAfter = some 60 ∧
       rb.2.allowed = true) := by
  refine ⟨?_, ?_, ?_, ?_, ?_, ?_⟩
  · intro h
    unfold rateLimiterStep
    rw [h]
    exact storeGet_storeSet_self store key _
  · intro e h hw
    unfold rateLimiterStep
    rw [h]
    dsimp only
    rw [if_pos hw]
    exact storeGet_storeSet_self store key _
  · intro e h hw
    unfold rateLimiterStep
    rw [h]
    dsimp only
    rw [if_neg hw]
    exact storeGet_storeSet_self store key _
  · intro e he
    unfold rateLimiterStep at he ⊢
    rw [storeGet_storeSet_self store key _] at he
    injection he with he
    subst he
    dsimp only
    set entry0 : RLEntry :=
      (match storeGet store key with
        | some e => if now > e.resetTime then ⟨0, now + windowMs⟩ else e
        | none => ⟨0, now + windowMs⟩) with hentry0
    by_cases hc : entry0.count + 1 > maxRequests
    · rw [if_pos hc]
      exact ⟨iff_of_false (by simp) (not_le.mpr hc), rfl,
        fun _ => rfl, fun hcon => by simp at hcon⟩
    · rw [if_neg hc]
      exact ⟨iff_of_true rfl (not_lt.mp hc), rfl,
        fun hcon => by simp at hcon, fun _ => rfl⟩
  · intro hne
    unfold rateLimiterStep
    exact storeGet_storeSet_other store key other _ hne
  · refine ⟨?_, ?_, ?_, ?_, ?_, ?_⟩ <;> with_unfolding_all decide

/-! ### Claim C6 -/

/-- Counterexample to claim C6: purchases on days 0, 7 and 15 with the
last one 22 days ago.  The exact average inter-purchase interval is
15/2 = 7.5 days, so the ratio 22 / 7.5 ≈ 2.93 is not above 3 and the
claim assigns tier high with probability 0.7 — but the code floors the
average to 7 whole days, sees 22 > 21, and classifies critical with
probability 0.9. -/
theorem churn_ratio_counterexample :
    (identifyChurnForCustomer (37 * dayMs) "none" churnCexTimes).map
        (fun r => (r.riskLevel, r.churnProbability, r.daysSinceLastPurchase,
          r.avgDaysBetweenPurchases)) =
      some ("critical", 9 / 10, 22, 7) ∧
    ¬ ((22 : ℚ) / (15 / 2) > 3) ∧ ((22 : ℚ) / (15 / 2) > 2) := by
  refine ⟨by with_unfolding_all decide, by norm_num, by norm_num⟩

/-- Claim C6 as amended: with D the floor of whole days since the last
purchase and I the floor of the average inter-purchase interval in whole
days (span over count minus one), a customer with at least 2 completed
transactions is critical with probability 0.9 when D > 3I, high with 0.7
when 2I < D ≤ 3I, medium with 0.4 when 1.5I < D ≤ 2I, and excluded
otherwise; for positive I the critical tier is the ratio test D/I > 3;
and the concrete scenario (2 transactions 10 days apart, 35 days since
the last) is critical with probability 0.9. -/
theorem churn_risk_tiers (now : ℤ) (tier : String) (t1 t2 : ℤ)
    (rest : List ℤ) :
    (let txs := t1 :: t2 :: rest
     let lastTs := txs.foldl max t1
     let firstTs := txs.foldl min t1
     let days : ℤ := ⌊((now - lastTs : ℤ) : ℚ) / (dayMs : ℚ)⌋
     let avg : ℤ :=
       ⌊((lastTs - firstTs : ℤ) : ℚ) / ((dayMs : ℚ) * ((txs.length : ℚ) - 1))⌋
     let res := identifyChurnForCustomer now tier txs
     ((res.map (fun r => (r.riskLevel, r.churnProbability)) =
         some ("critical", 9 / 10)) ↔ (days : ℚ) > (avg : ℚ) * 3) ∧
     ((res.map (fun r => (r.riskLevel, r.churnProbability)) =
         some ("high", 7 / 10)) ↔
       ¬ (days : ℚ) > (avg : ℚ) * 3 ∧ (days : ℚ) > (avg : ℚ) * 2) ∧
     ((res.map (fun r => (r.riskLevel, r.churnProbability)) =
         some ("medium", 4 / 10)) ↔
       ¬ (days : ℚ) > (avg : ℚ) * 3 ∧ ¬ (days : ℚ) > (avg : ℚ) * 2 ∧
       (days : ℚ) > (avg : ℚ) * (3 / 2)) ∧
     (res = none ↔
       ¬ (days : ℚ) > (avg : ℚ) * 3 ∧ ¬ (days : ℚ) > (avg : ℚ) * 2 ∧
       ¬ (days : ℚ) > (avg : ℚ) * (3 / 2)) ∧
     (∀ r, res = some r → r.daysSinceLastPurchase = days ∧
       r.avgDaysBetweenPurchases = avg ∧
       r.suggestedAction = getSuggestedAction r.riskLevel tier) ∧
     (0 < avg →
       ((res.map (fun r => r.riskLevel) = some "critical") ↔
         (days : ℚ) / (avg : ℚ) > 3))) ∧
    identifyChurnForCustomer (45 * dayMs) "none" [0, 10 * dayMs] =
      some ⟨"critical", 9 / 10, "Send win-back email with 20% discount",
        35, 10⟩ := by
  constructor
  · dsimp only
    simp only [identifyChurnForCustomer]
    rw [if_neg (by simp only [List.length_cons]; omega)]
    split_ifs with h1 ha h2 hb h3 hc hd
    · refine ⟨iff_of_true rfl h1,
        iff_of_false (by simp) (fun hc => hc.1 h1),
        iff_of_false (by simp) (fun hc => hc.1 h1),
        iff_of_false (by simp) (fun hc => hc.1 h1),
        ?_, ?_⟩
      · rintro r hr
        injection hr with hr
        subst hr
        exact ⟨rfl, rfl, rfl⟩
      · intro hI
        refine iff_of_true rfl ?_
        rw [gt_iff_lt, lt_div_iff₀ (by exact_mod_cast hI)]
        linarith
    · exact absurd (by norm_num) ha
    · refine ⟨iff_of_false (by simp) h1,
        iff_of_true rfl ⟨h1, h2⟩,
        iff_of_false (by simp) (fun hc => hc.2.1 h2),
        iff_of_false (by simp) (fun hc => hc.2.1 h2),
        ?_, ?_⟩
      · rintro r hr
        injection hr with hr
        subst hr
        exact ⟨rfl, rfl, rfl⟩
      · intro hI
        refine iff_of_false (by simp) ?_
        intro hr
        rw [gt_iff_lt, lt_div_iff₀ (by exact_mod_cast hI)] at hr
        exact h1 (by linarith)
    · exact absurd (by norm_num) hb
    · refine ⟨iff_of_false (by simp) h1,
        iff_of_false (by simp) (fun hc => h2 hc.2),
        iff_of_true rfl ⟨h1, h2, h3⟩,
        iff_of_false (by simp) (fun hc => hc.2.2 h3),
        ?_, ?_⟩
      · rintro r hr
        injection hr with hr
        subst hr
        exact ⟨rfl, rfl, rfl⟩
      · intro hI
        refine iff_of_false (by simp) ?_
        intro hr
        rw [gt_iff_lt, lt_div_iff₀ (by exact_mod_cast hI)] at hr
        exact h1 (by linarith)
    · exact absurd (by norm_num) hc
    · exact absurd hd (by norm_num)
    · refine ⟨iff_of_false (by simp) h1,
        iff_of_false (by simp) (fun hc => h2 hc.2),
        iff_of_false (by simp) (fun hc => h3 hc.2.2),
        iff_of_true rfl ⟨h1, h2, h3⟩,
        ?_, ?_⟩
      · rintro r hr
        cases hr
      · intro hI
        refine iff_of_false (by simp) ?_
        intro hr
        rw [gt_iff_lt, lt_div_iff₀ (by exact_mod_cast hI)] at hr
        exact h1 (by linarith)
  · with_unfolding_all decide

/-! ### Claim C7 -/

set_option maxRecDepth 10000 in
/-- Claim C7 fails on the code: in a population with one ordinary customer
and one customer with zero completed transactions, the zero-transaction
customer ends up in segment `New Customers` with RFM code `511`, not
`Lost` with `111`.  The phase-1 branch does store `Lost`/`111`, but the
scoring-loop guard reads `recencyDays` (undefined there, not null), never
skips, and overwrites both fields: `findIndex` over the recency array
returns -1 for the undefined value, the inverted percentile exceeds 100,
and the recency score becomes 5. -/
theorem rfm_zero_transactions_not_lost :
    (performRFMAnalysis (10 * dayMs) rfmBugCustomers).map
        (fun e => (e.customerId, e.segment, e.rfmScore)) =
      [(1, "Loyal Customers", "533"), (2, "New Customers", "511")] ∧
    ("New Customers" ≠ "Lost" ∧ "511" ≠ "111") := by
  exact ⟨by with_unfolding_all decide, by decide, by decide⟩

/-! ### Claim C8 -/

/-- Counterexample to claim C8: a product with 5 units in stock, 30 units
sold over 30 days (so 1 unit a day) and an attached supplier whose
`average_delivery_days` is 0.  With the claimed lead time L = 0 the
reorder point would be ceil(1×3) = 3 and no suggestion would be emitted
(5 > 3); the code turns the falsy 0 into the default 7, computes reorder
point 10 and emits a suggestion. -/
theorem reorder_lead_time_counterexample :
    (reorderSuggestionFor cexProduct 30).map
        (fun s => (s.reorderPoint, s.recommendedQuantity, s.urgency)) =
      some (10, 30, "medium") ∧
    cexSupplier.average_delivery_days = 0 ∧
    (⌈((30 : ℚ) / 30) * ((cexSupplier.average_delivery_days : ℚ) +
      (SAFETY_STOCK_DAYS : ℚ))⌉ : ℤ) = 3 ∧
    ¬ ((cexProduct.stock_quantity : ℤ) ≤ 3) := by
  exact ⟨by with_unfolding_all decide, rfl, by with_unfolding_all decide,
    by with_unfolding_all decide⟩

/-- Claim C8 as amended: the lead time is the supplier average delivery
days when a supplier is attached with a nonzero value and 7 otherwise
(the JS `||` default also replaces a zero value); the reorder point is
ceil(A×(L+3)), the recommended quantity ceil(A×30) (which equals the
30-day units sold), a suggestion is emitted exactly when stock ≤ reorder
point, and the urgency is critical at zero stock, high at stock ≤ A×3,
medium otherwise. -/
theorem reorder_suggestion_spec (product : RProduct) (totalSold : ℕ) :
    leadTimeOf none = 7 ∧
    (∀ sup : RSupplier, sup.average_delivery_days ≠ 0 →
      leadTimeOf (some sup) = sup.average_delivery_days) ∧
    (∀ sup : RSupplier, sup.average_delivery_days = 0 →
      leadTimeOf (some sup) = 7) ∧
    (reorderSuggestionFor product totalSold = none ↔
      ¬ ((product.stock_quantity : ℤ) ≤
        ⌈((totalSold : ℚ) / 30) * ((leadTimeOf product.supplier : ℚ) +
          (SAFETY_STOCK_DAYS : ℚ))⌉)) ∧
    (∀ s, reorderSuggestionFor product totalSold = some s →
      s.currentStock = product.stock_quantity ∧
      s.reorderPoint =
        ⌈((totalSold : ℚ) / 30) * ((leadTimeOf product.supplier : ℚ) +
          (SAFETY_STOCK_DAYS : ℚ))⌉ ∧
      s.recommendedQuantity = ⌈((totalSold : ℚ) / 30) * 30⌉ ∧
      s.recommendedQuantity = (totalSold : ℤ) ∧
      (s.urgency = "critical" ↔ product.stock_quantity = 0) ∧
      (s.urgency = "high" ↔ product.stock_quantity ≠ 0 ∧
        (product.stock_quantity : ℚ) ≤ ((totalSold : ℚ) / 30) * 3) ∧
      (s.urgency = "medium" ↔ product.stock_quantity ≠ 0 ∧
        ¬ (product.stock_quantity : ℚ) ≤ ((totalSold : ℚ) / 30) * 3)) := by
  have hqty : (⌈((totalSold : ℚ) / 30) * 30⌉ : ℤ) = (totalSold : ℤ) := by
    have h30 : ((totalSold : ℚ) / 30) * 30 = (totalSold : ℚ) := by
      field_simp
    rw [h30, Int.ceil_natCast]
  refine ⟨rfl, ?_, ?_, ?_, ?_⟩
  · intro sup h
    simp only [leadTimeOf]
    rw [if_neg h]
  · intro sup h
    simp only [leadTimeOf]
    rw [if_pos h]
  · unfold reorderSuggestionFor
    dsimp only
    split_ifs with hin
    · exact iff_of_false (by simp) (fun hcon => hcon hin)
    · exact iff_of_true rfl hin
  · intro s hs
    unfold reorderSuggestionFor at hs
    dsimp only at hs
    split_ifs at hs with hin hc hh
    · injection hs with hs
      subst hs
      refine ⟨rfl, rfl, rfl, hqty, iff_of_true rfl hc,
        iff_of_false (by simp) (fun hcon => hcon.1 hc),
        iff_of_false (by simp) (fun hcon => hcon.1 hc)⟩
    · injection hs with hs
      subst hs
      refine ⟨rfl, rfl, rfl, hqty,
        iff_of_false (by simp) hc,
        iff_of_true rfl ⟨hc, hh⟩,
        iff_of_false (by simp) (fun hcon => hcon.2 hh)⟩
    · injection hs with hs
      subst hs
      refine ⟨rfl, rfl, rfl, hqty,
        iff_of_false (by simp) hc,
        iff_of_false (by simp) (fun hcon => hh hcon.2),
        iff_of_true rfl ⟨hc, hh⟩⟩

/-! ### Claim C9 -/

/-- Claim C9: the reported hit rate is exactly hits/(hits+misses), is 0
when no get has been counted, and is 3/4 = 0.75 after three hits and one
miss. -/
theorem cache_hit_rate_spec (s : CacheStats) :
    (s.hits + s.misses = 0 → hitRate s = 0) ∧
    (s.hits + s.misses ≠ 0 →
      hitRate s = (s.hits : ℚ) / ((s.hits : ℚ) + (s.misses : ℚ))) ∧
    hitRate (recordMiss (recordHit (recordHit (recordHit initialCacheStats))))
      = 3 / 4 ∧
    hitRate initialCacheStats = 0 := by
  refine ⟨?_, ?_, by with_unfolding_all decide, by with_unfolding_all decide⟩
  · intro h
    unfold hitRate
    rw [if_pos h]
  · intro h
    unfold hitRate
    rw [if_neg h]

end TechMart
